import Mathlib

/-!
Shallow embedding of the billing/payment reconciliation logic of the
event-hub application (src/src/pages/Accounts.tsx) and of the products
table of the SQL schema (src/unnamed/part_001).  Monetary values are
modelled as rationals; optional / possibly-falsy JavaScript fields are
modelled as `Option ℚ`, with `jsOr` capturing the semantics of the
JavaScript `x || d` idiom on numbers (absent or zero yields the default).
-/

/-- Semantics of the JavaScript expression `x || d` for a numeric field
`x` that may be absent: an absent value or the (falsy) value `0` yields
the default `d`; any other stored value is returned unchanged. -/
def jsOr (x : Option ℚ) (d : ℚ) : ℚ :=
  match x with
  | none => d
  | some v => if v = 0 then d else v

/-- A line item of a billing transaction, as read from the JSONB `items`
column: `price`, `quantity` and `event_margin` may each be absent. -/
structure LineItem where
  price : Option ℚ
  quantity : Option ℚ
  event_margin : Option ℚ
deriving DecidableEq

/-- A row of `billing_transactions`: the owning stall, the stored `total`,
and the line-item list; `items = none` models an `items` field that is
not an array (the code checks `Array.isArray`). -/
structure BillingTransaction where
  stall_id : String
  total : Option ℚ
  items : Option (List LineItem)
deriving DecidableEq

/-- The `payment_type` enum of the schema. -/
inductive PaymentType where
  | participant
  | other
deriving DecidableEq

/-- A row of `payments`. -/
structure Payment where
  payment_type : PaymentType
  stall_id : Option String
  amount_paid : Option ℚ
  narration : Option String
deriving DecidableEq

/-- The `registration_type` enum of the schema. -/
inductive RegistrationType where
  | stall_counter
  | employment_booking
  | employment_registration
deriving DecidableEq

/-- A row of `registrations` (only the fields the reconciliation reads). -/
structure Registration where
  registration_type : RegistrationType
  amount : Option ℚ
deriving DecidableEq

/-- A row of `stalls` (only the fields the reconciliation reads). -/
structure Stall where
  id : String
  counter_name : String
  is_verified : Bool
  registration_fee : Option ℚ
deriving DecidableEq

/-- The stalls query of Accounts.tsx: `from('stalls').select('*')
.eq('is_verified', true).order('counter_name')`.  The ordering by
`counter_name` is omitted because every quantity proved about the result
is a sum, which is order independent. -/
def fetchStalls (allStalls : List Stall) : List Stall :=
  allStalls.filter (fun s => s.is_verified)

/-- Billing transactions belonging to the selected stall:
`billingTransactions.filter(t => t.stall_id === stallId)`. -/
def stallTransactions (stallId : String) (billingTransactions : List BillingTransaction) :
    List BillingTransaction :=
  billingTransactions.filter (fun t => decide (t.stall_id = stallId))

/-- `billedAmount = stallTransactions.reduce((sum, t) => sum + (t.total || 0), 0)`. -/
def billedAmount (stallId : String) (billingTransactions : List BillingTransaction) : ℚ :=
  (stallTransactions stallId billingTransactions).foldl (fun sum t => sum + jsOr t.total 0) 0

/-- The item list of a transaction: `Array.isArray(tx.items) ? tx.items : []`. -/
def txItems (tx : BillingTransaction) : List LineItem :=
  tx.items.getD []

/-- Per-item balance of the bill-balance computation:
`itemTotal = Number(item.price || 0) * Number(item.quantity || 1)`;
`commission = Number(item.event_margin || 20)`;
`itemBalance = itemTotal * (1 - commission / 100)`. -/
def itemBalance (item : LineItem) : ℚ :=
  let itemTotal := jsOr item.price 0 * jsOr item.quantity 1
  let commission := jsOr item.event_margin 20
  itemTotal * (1 - commission / 100)

/-- Per-transaction balance: `items.reduce((sum, item) => sum + itemBalance, 0)`. -/
def txBalance (tx : BillingTransaction) : ℚ :=
  (txItems tx).foldl (fun sum item => sum + itemBalance item) 0

/-- `billBalance = stallTransactions.reduce((txSum, tx) => txSum + txBalance, 0)`. -/
def billBalance (stallId : String) (billingTransactions : List BillingTransaction) : ℚ :=
  (stallTransactions stallId billingTransactions).foldl (fun txSum tx => txSum + txBalance tx) 0

/-- `alreadyPaid = payments.filter(p => p.stall_id === stallId &&
p.payment_type === "participant").reduce((sum, p) => sum + (p.amount_paid || 0), 0)`. -/
def alreadyPaid (stallId : String) (payments : List Payment) : ℚ :=
  (payments.filter (fun p =>
      decide (p.stall_id = some stallId ∧ p.payment_type = PaymentType.participant))).foldl
    (fun sum p => sum + jsOr p.amount_paid 0) 0

/-- `remainingBalance = Math.max(0, billBalance - alreadyPaid)`. -/
def remainingBalance (stallId : String) (billingTransactions : List BillingTransaction)
    (payments : List Payment) : ℚ :=
  max 0 (billBalance stallId billingTransactions - alreadyPaid stallId payments)

/-- `stallName = stalls.find(s => s.id === stallId)?.counter_name || 'Unknown'`. -/
def stallName (stallId : String) (stalls : List Stall) : String :=
  match stalls.find? (fun s => decide (s.id = stallId)) with
  | some s => s.counter_name
  | none => "Unknown"

/-- `totalBillingCollected = billingTransactions.reduce((sum, t) => sum + (t.total || 0), 0)`. -/
def totalBillingCollected (billingTransactions : List BillingTransaction) : ℚ :=
  billingTransactions.foldl (fun sum t => sum + jsOr t.total 0) 0

/-- `totalRegistrationCollected = registrations.filter(r =>
r.registration_type !== "stall_counter").reduce((sum, r) => sum + (r.amount || 0), 0)`. -/
def totalRegistrationCollected (registrations : List Registration) : ℚ :=
  (registrations.filter (fun r =>
      decide (r.registration_type ≠ RegistrationType.stall_counter))).foldl
    (fun sum r => sum + jsOr r.amount 0) 0

/-- `stallBookingFees = stalls.reduce((sum, s) => sum + (s.registration_fee || 0), 0)`,
over the stalls collection fetched by the stalls query. -/
def stallBookingFees (stalls : List Stall) : ℚ :=
  stalls.foldl (fun sum s => sum + jsOr s.registration_fee 0) 0

/-- `totalCollected = totalBillingCollected + totalRegistrationCollected + stallBookingFees`. -/
def totalCollected (billingTransactions : List BillingTransaction)
    (registrations : List Registration) (stalls : List Stall) : ℚ :=
  totalBillingCollected billingTransactions + totalRegistrationCollected registrations +
    stallBookingFees stalls

/-- `stallPaymentsTotal = payments.filter(p => p.payment_type === "participant")
.reduce((sum, p) => sum + (p.amount_paid || 0), 0)`. -/
def stallPaymentsTotal (payments : List Payment) : ℚ :=
  (payments.filter (fun p => decide (p.payment_type = PaymentType.participant))).foldl
    (fun sum p => sum + jsOr p.amount_paid 0) 0

/-- `otherPaymentsTotal = payments.filter(p => p.payment_type === "other")
.reduce((sum, p) => sum + (p.amount_paid || 0), 0)`. -/
def otherPaymentsTotal (payments : List Payment) : ℚ :=
  (payments.filter (fun p => decide (p.payment_type = PaymentType.other))).foldl
    (fun sum p => sum + jsOr p.amount_paid 0) 0

/-- `totalPaid = otherPaymentsTotal`. -/
def totalPaid (payments : List Payment) : ℚ :=
  otherPaymentsTotal payments

/-- `cashBalance = totalCollected - totalPaid`. -/
def cashBalance (billingTransactions : List BillingTransaction)
    (registrations : List Registration) (stalls : List Stall) (payments : List Payment) : ℚ :=
  totalCollected billingTransactions registrations stalls - totalPaid payments

/-- The payment row inserted by `handleStallPayment`:
`payment_type "participant"`, the selected stall, the parsed amount, and
the narration built from the stall name. -/
def mkStallPaymentRow (stallId : String) (amount : ℚ) (stalls : List Stall) : Payment :=
  { payment_type := PaymentType.participant
    stall_id := some stallId
    amount_paid := some amount
    narration := some ("Payment to " ++ stallName stallId stalls) }

/-- The `handleStallPayment` handler: an absent stall selection or absent
amount is rejected; an amount exceeding the remaining balance is rejected
before any write; otherwise the payment row is inserted.  The result pairs
the inserted row (if any) with the payments collection after the call. -/
def handleStallPayment (stallId : Option String) (amount : Option ℚ)
    (billingTransactions : List BillingTransaction) (payments : List Payment)
    (stalls : List Stall) : Option Payment × List Payment :=
  match stallId, amount with
  | some sid, some amt =>
    if remainingBalance sid billingTransactions payments < amt then
      (none, payments)
    else
      (some (mkStallPaymentRow sid amt stalls),
        payments ++ [mkStallPaymentRow sid amt stalls])
  | _, _ => (none, payments)

/-- `computeSellingPrice` is the expression of the generated column of the
`products` table: `cost_price * (1 + event_margin / 100)`. -/
def computeSellingPrice (cost_price event_margin : ℚ) : ℚ :=
  cost_price * (1 + event_margin / 100)

/-- A row of the `products` table (the fields the invariant is about). -/
structure Product where
  item_name : String
  cost_price : ℚ
  event_margin : ℚ
  selling_price : ℚ
deriving DecidableEq

/-- A freshly written product row: `event_margin` takes the schema default
`20.00` when not supplied, and `selling_price` is the generated column,
recomputed by the database from `cost_price` and `event_margin` on every
write (`GENERATED ALWAYS ... STORED`). -/
def mkProductRow (name : String) (cost : ℚ) (margin : Option ℚ) : Product :=
  { item_name := name
    cost_price := cost
    event_margin := margin.getD 20
    selling_price := computeSellingPrice cost (margin.getD 20) }

/-- Operations a client can perform on the `products` table.  No operation
carries a `selling_price` value: the column is `GENERATED ALWAYS`, so the
database rejects any attempt to write it directly, and it is recomputed
from `cost_price` and `event_margin` on every insert and update. -/
inductive ProductOp where
  | insertRow (name : String) (cost : ℚ) (margin : Option ℚ)
  | updateRow (idx : Nat) (name : String) (cost : ℚ) (margin : ℚ)
  | deleteRow (idx : Nat)

/-- Rewrites the row at the given index with new writable fields; the
generated `selling_price` column is recomputed.  Out-of-range indices
leave the table unchanged. -/
def updateProductAt : List Product → Nat → String → ℚ → ℚ → List Product
  | [], _, _, _, _ => []
  | _ :: rest, 0, name, cost, margin =>
      { item_name := name, cost_price := cost, event_margin := margin,
        selling_price := computeSellingPrice cost margin } :: rest
  | p :: rest, Nat.succ n, name, cost, margin => p :: updateProductAt rest n name cost margin

/-- One step of the products state under a client operation. -/
def applyProductOp (ps : List Product) : ProductOp → List Product
  | ProductOp.insertRow name cost margin => ps ++ [mkProductRow name cost margin]
  | ProductOp.updateRow idx name cost margin => updateProductAt ps idx name cost margin
  | ProductOp.deleteRow idx => ps.eraseIdx idx

/-- The products state reached from the empty table by a sequence of
client operations. -/
def runProductOps (ops : List ProductOp) : List Product :=
  ops.foldl applyProductOp []

/-- The invariant claimed of every product row: the stored selling price
equals `cost_price × (1 + event_margin / 100)`. -/
def sellingPriceConsistent (p : Product) : Prop :=
  p.selling_price = p.cost_price * (1 + p.event_margin / 100)

/-- Spec-side reading of the per-line-item balance (claim C1's wording):
the stored price, the stored quantity, and the stored margin are used
whenever present, the margin defaulting to 20 only when absent. -/
def specItemBalance (item : LineItem) : ℚ :=
  item.price.getD 0 * item.quantity.getD 1 * (1 - item.event_margin.getD 20 / 100)

/-- Spec-side reading of the bill balance: sum of `specItemBalance` over
each line item of each billing transaction belonging to the stall. -/
def specBillBalance (stallId : String) (billingTransactions : List BillingTransaction) : ℚ :=
  ((stallTransactions stallId billingTransactions).map
    (fun tx => ((txItems tx).map specItemBalance).sum)).sum

/-- Spec-side reading of the stall booking fees (claim C8's wording): the
sum of `registration_fee` over every stall in the system, verified or not. -/
def specStallBookingFees (allStalls : List Stall) : ℚ :=
  (allStalls.map (fun s => (s.registration_fee).getD 0)).sum

/-- A left fold accumulating `f` over a list equals the initial value plus
the sum of the mapped list; this bridges the `reduce` idiom of the code to
the "sum over" wording of the specification. -/
theorem foldl_add_eq_sum {α : Type} (l : List α) (f : α → ℚ) (init : ℚ) :
    l.foldl (fun s x => s + f x) init = init + (l.map f).sum := by
  induction l generalizing init with
  | nil => simp
  | cons a t ih => simp [List.foldl_cons, ih, add_assoc]

/-- The per-transaction balance as a sum over the mapped item list. -/
theorem txBalance_eq_sum (tx : BillingTransaction) :
    txBalance tx = ((txItems tx).map itemBalance).sum := by
  simpa [txBalance] using foldl_add_eq_sum (txItems tx) itemBalance 0

/-- The bill balance as a sum over the stall's transactions. -/
theorem billBalance_eq_sum (stallId : String) (txs : List BillingTransaction) :
    billBalance stallId txs = ((stallTransactions stallId txs).map txBalance).sum := by
  simpa [billBalance] using foldl_add_eq_sum (stallTransactions stallId txs) txBalance 0

/-- The already-paid figure as a sum over the stall's participant payments. -/
theorem alreadyPaid_eq_sum (stallId : String) (payments : List Payment) :
    alreadyPaid stallId payments =
      ((payments.filter (fun p =>
          decide (p.stall_id = some stallId ∧ p.payment_type = PaymentType.participant))).map
        (fun p => jsOr p.amount_paid 0)).sum := by
  simpa [alreadyPaid] using
    foldl_add_eq_sum
      (payments.filter (fun p =>
        decide (p.stall_id = some stallId ∧ p.payment_type = PaymentType.participant)))
      (fun p => jsOr p.amount_paid 0) 0

/-- C1 (amended): the bill balance equals the sum, over each billing
transaction of the stall and each of its line items, of
price′ × quantity′ × (1 − margin′/100), where price′ is the stored price
when present and nonzero (else 0), quantity′ is the stored quantity when
present and nonzero (else 1), and margin′ is the line item's own stored
margin when present and nonzero (else 20): the code treats a stored zero
as absent.  The margin is applied per line item, not on the aggregate. -/
theorem billBalance_applies_margin_per_line_item (stallId : String)
    (txs : List BillingTransaction) :
    billBalance stallId txs =
      ((stallTransactions stallId txs).map
        (fun tx => ((txItems tx).map
          (fun item =>
            jsOr item.price 0 * jsOr item.quantity 1 *
              (1 - jsOr item.event_margin 20 / 100))).sum)).sum := by
  rw [billBalance_eq_sum]
  refine congrArg List.sum (List.map_congr_left fun tx _ => ?_)
  rw [txBalance_eq_sum]
  refine congrArg List.sum (List.map_congr_left fun item _ => ?_)
  simp [itemBalance]

/-- C1 (counterexample): a line item whose stored margin is 0 is billed
with margin 20 by the code, while the claim's formula uses the stored
margin 0; at price 100, quantity 1, margin 0 the code yields 80 and the
claim's formula yields 100. -/
theorem billBalance_zero_margin_diverges_from_spec :
    billBalance "s1" [⟨"s1", some 100, some [⟨some 100, some 1, some 0⟩]⟩] = 80 ∧
    specBillBalance "s1" [⟨"s1", some 100, some [⟨some 100, some 1, some 0⟩]⟩] = 100 ∧
    billBalance "s1" [⟨"s1", some 100, some [⟨some 100, some 1, some 0⟩]⟩] ≠
      specBillBalance "s1" [⟨"s1", some 100, some [⟨some 100, some 1, some 0⟩]⟩] := by
  refine ⟨?_, ?_, ?_⟩ <;>
    norm_num [billBalance, specBillBalance, stallTransactions, List.filter, txBalance,
      txItems, itemBalance, specItemBalance, jsOr]

/-- C2: the remaining balance is `max 0 (billBalance − alreadyPaid)`,
where `alreadyPaid` sums `amount_paid` over the stall's participant-type
payments; whenever `alreadyPaid ≥ billBalance` the remaining balance is
exactly 0, and it is never negative. -/
theorem remainingBalance_formula (stallId : String) (txs : List BillingTransaction)
    (payments : List Payment) :
    remainingBalance stallId txs payments =
        max 0 (billBalance stallId txs - alreadyPaid stallId payments)
    ∧ alreadyPaid stallId payments =
        ((payments.filter (fun p =>
            decide (p.stall_id = some stallId ∧ p.payment_type = PaymentType.participant))).map
          (fun p => jsOr p.amount_paid 0)).sum
    ∧ (billBalance stallId txs ≤ alreadyPaid stallId payments →
        remainingBalance stallId txs payments = 0)
    ∧ 0 ≤ remainingBalance stallId txs payments := by
  refine ⟨rfl, alreadyPaid_eq_sum stallId payments, fun h => ?_, le_max_left 0 _⟩
  have hle : billBalance stallId txs - alreadyPaid stallId payments ≤ 0 := sub_nonpos.mpr h
  simpa [remainingBalance] using max_eq_left hle

/-- Witness for C2 at a stall with no transactions and one payment of 5. -/
theorem remainingBalance_formula_witness :
    remainingBalance "s1" [] [⟨PaymentType.participant, some "s1", some 5, none⟩] = 0 :=
  (remainingBalance_formula "s1" []
      [⟨PaymentType.participant, some "s1", some 5, none⟩]).2.2.1
    (by norm_num [billBalance, stallTransactions, alreadyPaid, List.filter, jsOr])

/-- C5: the event-wide total collected is exactly the sum of the three
component totals, the billing total is the sum of `total` over all
billing transactions, and the registration total is the sum of `amount`
over registrations whose type is not stall-counter booking. -/
theorem totalCollected_components (txs : List BillingTransaction)
    (regs : List Registration) (stalls : List Stall) :
    totalCollected txs regs stalls =
        totalBillingCollected txs + totalRegistrationCollected regs + stallBookingFees stalls
    ∧ totalBillingCollected txs = (txs.map (fun t => jsOr t.total 0)).sum
    ∧ totalRegistrationCollected regs =
        ((regs.filter (fun r =>
            decide (r.registration_type ≠ RegistrationType.stall_counter))).map
          (fun r => jsOr r.amount 0)).sum := by
  refine ⟨rfl, ?_, ?_⟩
  · simpa [totalBillingCollected] using foldl_add_eq_sum txs (fun t => jsOr t.total 0) 0
  · simpa [totalRegistrationCollected] using
      foldl_add_eq_sum
        (regs.filter (fun r => decide (r.registration_type ≠ RegistrationType.stall_counter)))
        (fun r => jsOr r.amount 0) 0

/-- C6: appending one participant payment for the stall with a
non-negative (effective) amount never increases the remaining balance. -/
theorem remainingBalance_antitone_in_payments (stallId : String)
    (txs : List BillingTransaction) (payments : List Payment) (p : Payment)
    (h1 : p.payment_type = PaymentType.participant) (h2 : p.stall_id = some stallId)
    (h3 : 0 ≤ jsOr p.amount_paid 0) :
    remainingBalance stallId txs (payments ++ [p]) ≤ remainingBalance stallId txs payments := by
  have hfil : (payments ++ [p]).filter (fun q =>
        decide (q.stall_id = some stallId ∧ q.payment_type = PaymentType.participant)) =
      payments.filter (fun q =>
        decide (q.stall_id = some stallId ∧ q.payment_type = PaymentType.participant)) ++ [p] := by
    simp [List.filter_append, List.filter, h1, h2]
  have hpaid : alreadyPaid stallId (payments ++ [p]) =
      alreadyPaid stallId payments + jsOr p.amount_paid 0 := by
    rw [alreadyPaid_eq_sum, alreadyPaid_eq_sum, hfil]
    simp
  have hsub : billBalance stallId txs - (alreadyPaid stallId payments + jsOr p.amount_paid 0) ≤
      billBalance stallId txs - alreadyPaid stallId payments := by linarith
  simpa [remainingBalance, hpaid] using max_le_max (le_refl (0 : ℚ)) hsub

/-- Witness for C6: a payment of 3 on an empty history. -/
theorem remainingBalance_antitone_in_payments_witness :
    remainingBalance "s1" [] ([] ++ [⟨PaymentType.participant, some "s1", some 3, none⟩]) ≤
      remainingBalance "s1" [] [] :=
  remainingBalance_antitone_in_payments "s1" [] []
    ⟨PaymentType.participant, some "s1", some 3, none⟩ rfl rfl (by norm_num [jsOr])

/-- C7 (amended): for a stall with no billing transactions the billed
amount and bill balance are 0, and the remaining balance is 0 provided
the participant payments recorded for the stall have a non-negative sum
(in particular when no payment has a negative `amount_paid`). -/
theorem no_transactions_all_zero (stallId : String) (txs : List BillingTransaction)
    (payments : List Payment) (h : stallTransactions stallId txs = [])
    (hpaid : 0 ≤ alreadyPaid stallId payments) :
    billedAmount stallId txs = 0 ∧ billBalance stallId txs = 0 ∧
      remainingBalance stallId txs payments = 0 := by
  have hbb : billBalance stallId txs = 0 := by simp [billBalance, h]
  refine ⟨by simp [billedAmount, h], hbb, ?_⟩
  have hle : billBalance stallId txs - alreadyPaid stallId payments ≤ 0 := by
    rw [hbb]; linarith
  simpa [remainingBalance] using max_eq_left hle

/-- Witness for C7's amended statement: no transactions, one payment of 3. -/
theorem no_transactions_all_zero_witness :
    billedAmount "s1" [] = 0 ∧ billBalance "s1" [] = 0 ∧
      remainingBalance "s1" [] [⟨PaymentType.participant, some "s1", some 3, none⟩] = 0 :=
  no_transactions_all_zero "s1" [] [⟨PaymentType.participant, some "s1", some 3, none⟩]
    rfl (by norm_num [alreadyPaid, List.filter, jsOr])

/-- C7 (counterexample): a stall with no billing transactions but one
participant payment with `amount_paid = −5` has remaining balance 5, not
0, so the claim's "regardless of what payments exist" fails. -/
theorem negative_payment_counterexample :
    remainingBalance "s1" [] [⟨PaymentType.participant, some "s1", some (-5), none⟩] = 5 ∧
    remainingBalance "s1" [] [⟨PaymentType.participant, some "s1", some (-5), none⟩] ≠ 0 := by
  constructor <;>
    norm_num [remainingBalance, billBalance, stallTransactions, alreadyPaid, List.filter, jsOr]

/-- C8 (amended): the stall booking fees figure sums `registration_fee`
over the stalls returned by the stalls query, which selects only stalls
with `is_verified = true`; unverified stalls contribute nothing. -/
theorem stallBookingFees_verified_only (allStalls : List Stall) :
    stallBookingFees (fetchStalls allStalls) =
      ((allStalls.filter (fun s => s.is_verified)).map
        (fun s => jsOr s.registration_fee 0)).sum := by
  simpa [stallBookingFees, fetchStalls] using
    foldl_add_eq_sum (allStalls.filter (fun s => s.is_verified))
      (fun s => jsOr s.registration_fee 0) 0

/-- C8 (counterexample): a single unverified stall with registration fee
100 contributes nothing to the computed booking fees, while the claim's
"over all stalls" formula yields 100. -/
theorem unverified_stall_counterexample :
    stallBookingFees (fetchStalls [⟨"s1", "Counter A", false, some 100⟩]) = 0 ∧
    specStallBookingFees [⟨"s1", "Counter A", false, some 100⟩] = 100 ∧
    stallBookingFees (fetchStalls [⟨"s1", "Counter A", false, some 100⟩]) ≠
      specStallBookingFees [⟨"s1", "Counter A", false, some 100⟩] := by
  refine ⟨?_, ?_, ?_⟩ <;>
    norm_num [stallBookingFees, fetchStalls, specStallBookingFees, List.filter, jsOr]

/-- C3: a participant payment whose amount exceeds the remaining balance
is rejected before any write — no row is produced and the payments
collection is unchanged — while a payment with a stall selected and
amount at most the remaining balance is recorded by appending the
corresponding payment row. -/
theorem handleStallPayment_validation (stallId : String) (amt : ℚ)
    (txs : List BillingTransaction) (payments : List Payment) (stalls : List Stall) :
    (remainingBalance stallId txs payments < amt →
        handleStallPayment (some stallId) (some amt) txs payments stalls = (none, payments))
    ∧ (amt ≤ remainingBalance stallId txs payments →
        handleStallPayment (some stallId) (some amt) txs payments stalls =
          (some (mkStallPaymentRow stallId amt stalls),
            payments ++ [mkStallPaymentRow stallId amt stalls])) := by
  constructor
  · intro h
    simp [handleStallPayment, h]
  · intro h
    simp [handleStallPayment, not_lt.mpr h]

/-- Witness for C3: a payment of 5 against a remaining balance of 160 is
recorded. -/
theorem handleStallPayment_validation_witness :
    handleStallPayment (some "s1") (some 5)
        [⟨"s1", some 200, some [⟨some 100, some 2, some 20⟩]⟩] [] [] =
      (some (mkStallPaymentRow "s1" 5 []), [] ++ [mkStallPaymentRow "s1" 5 []]) :=
  (handleStallPayment_validation "s1" 5
      [⟨"s1", some 200, some [⟨some 100, some 2, some 20⟩]⟩] [] []).2
    (by norm_num [remainingBalance, billBalance, stallTransactions, alreadyPaid,
      List.filter, txBalance, txItems, itemBalance, jsOr])

/-- C4: the event-wide total paid sums `amount_paid` over payments of
type "other" only; appending a participant-type payment leaves it
unchanged; and the cash balance is total collected minus total paid. -/
theorem totalPaid_excludes_participant (payments : List Payment) (p : Payment)
    (h : p.payment_type = PaymentType.participant) :
    totalPaid payments =
        ((payments.filter (fun q => decide (q.payment_type = PaymentType.other))).map
          (fun q => jsOr q.amount_paid 0)).sum
    ∧ totalPaid (payments ++ [p]) = totalPaid payments
    ∧ ∀ (txs : List BillingTransaction) (regs : List Registration) (stalls : List Stall),
        cashBalance txs regs stalls payments =
          totalCollected txs regs stalls - totalPaid payments := by
  refine ⟨?_, ?_, fun txs regs stalls => rfl⟩
  · simpa [totalPaid, otherPaymentsTotal] using
      foldl_add_eq_sum (payments.filter (fun q => decide (q.payment_type = PaymentType.other)))
        (fun q => jsOr q.amount_paid 0) 0
  · simp [totalPaid, otherPaymentsTotal, List.filter_append, List.filter, h]

/-- Witness for C4: one other-type payment of 7, appending a participant
payment of 4 leaves total paid unchanged. -/
theorem totalPaid_excludes_participant_witness :
    totalPaid ([⟨PaymentType.other, none, some 7, none⟩] ++
        [⟨PaymentType.participant, some "s1", some 4, none⟩]) =
      totalPaid [⟨PaymentType.other, none, some 7, none⟩] :=
  (totalPaid_excludes_participant [⟨PaymentType.other, none, some 7, none⟩]
      ⟨PaymentType.participant, some "s1", some 4, none⟩ rfl).2.1

/-- Membership in an updated products list: every row either was already
present or is the freshly rewritten row with its recomputed selling
price. -/
theorem mem_updateProductAt (q : Product) :
    ∀ (ps : List Product) (idx : Nat) (name : String) (cost margin : ℚ),
      q ∈ updateProductAt ps idx name cost margin →
        q ∈ ps ∨ q = { item_name := name, cost_price := cost, event_margin := margin,
                       selling_price := computeSellingPrice cost margin } := by
  intro ps
  induction ps with
  | nil =>
    intro idx name cost margin h
    simp [updateProductAt] at h
  | cons p rest ih =>
    intro idx name cost margin h
    cases idx with
    | zero =>
      rcases List.mem_cons.mp h with h' | h'
      · exact Or.inr h'
      · exact Or.inl (List.mem_cons_of_mem p h')
    | succ n =>
      rcases List.mem_cons.mp h with h' | h'
      · exact Or.inl (by simp [h'])
      · rcases ih n name cost margin h' with h'' | h''
        · exact Or.inl (List.mem_cons_of_mem p h'')
        · exact Or.inr h''

/-- One client operation on the products table preserves the
selling-price invariant. -/
theorem applyProductOp_preserves (ps : List Product) (op : ProductOp)
    (h : ∀ p ∈ ps, sellingPriceConsistent p) :
    ∀ p ∈ applyProductOp ps op, sellingPriceConsistent p := by
  intro q hq
  cases op with
  | insertRow name cost margin =>
    rcases List.mem_append.mp hq with h' | h'
    · exact h q h'
    · have : q = mkProductRow name cost margin := by simpa using h'
      subst this
      rfl
  | updateRow idx name cost margin =>
    rcases mem_updateProductAt q ps idx name cost margin hq with h' | h'
    · exact h q h'
    · subst h'
      rfl
  | deleteRow idx =>
    exact h q ((ps.eraseIdx_sublist idx).subset hq)

/-- Folding any sequence of product operations preserves the
selling-price invariant. -/
theorem foldl_productOps_preserves (ops : List ProductOp) :
    ∀ (ps : List Product), (∀ p ∈ ps, sellingPriceConsistent p) →
      ∀ p ∈ ops.foldl applyProductOp ps, sellingPriceConsistent p := by
  induction ops with
  | nil =>
    intro ps h
    simpa using h
  | cons op rest ih =>
    intro ps h
    exact ih (applyProductOp ps op) (applyProductOp_preserves ps op h)

/-- C9: in every products state reachable by client operations, each
row's stored selling price equals `cost_price × (1 + event_margin/100)`;
the column is generated, recomputed on every create and update, and no
operation can write it independently. -/
theorem selling_price_generated_invariant (ops : List ProductOp) :
    ∀ p ∈ runProductOps ops, sellingPriceConsistent p :=
  foldl_productOps_preserves ops [] (by simp)

/-- Witness for C9: the row inserted for cost 50 and margin 10 satisfies
the invariant. -/
theorem selling_price_generated_invariant_witness :
    sellingPriceConsistent (mkProductRow "tea" 50 (some 10)) :=
  selling_price_generated_invariant [ProductOp.insertRow "tea" 50 (some 10)]
    (mkProductRow "tea" 50 (some 10)) (by simp [runProductOps, applyProductOp])

/-- C10: in the per-line-item computation, a falsy price (absent or 0)
makes the item contribute 0; a falsy quantity (absent or 0) is treated as
quantity 1; a falsy margin (absent or 0) is treated as margin 20; and a
transaction whose `items` field is not an array contributes 0. -/
theorem itemBalance_falsy_defaults (item : LineItem) :
    ((item.price = none ∨ item.price = some 0) → itemBalance item = 0)
    ∧ ((item.quantity = none ∨ item.quantity = some 0) →
        itemBalance item = itemBalance ⟨item.price, some 1, item.event_margin⟩)
    ∧ ((item.event_margin = none ∨ item.event_margin = some 0) →
        itemBalance item = itemBalance ⟨item.price, item.quantity, some 20⟩)
    ∧ ∀ (sid : String) (total : Option ℚ), txBalance ⟨sid, total, none⟩ = 0 := by
  refine ⟨?_, ?_, ?_, ?_⟩
  · rintro (h | h) <;> norm_num [itemBalance, jsOr, h]
  · rintro (h | h) <;> norm_num [itemBalance, jsOr, h]
  · rintro (h | h) <;> norm_num [itemBalance, jsOr, h]
  · intro sid total
    simp [txBalance, txItems]

/-- Witness for C10: a line item with quantity 0 is billed as quantity 1. -/
theorem itemBalance_falsy_defaults_witness :
    itemBalance ⟨some 10, some 0, some 20⟩ = itemBalance ⟨some 10, some 1, some 20⟩ :=
  (itemBalance_falsy_defaults ⟨some 10, some 0, some 20⟩).2.1 (Or.inr rfl)
